import Mathlib

/-!
Verification of the slack-jira-bot repository: a shallow embedding of the
agent loop (src/api/_openai.ts), the webhook handlers (src/api/events.ts and
the retry-aware variant), and the Jira capability layer (the _jira module),
with theorems settling the frozen claims about them.

JavaScript runtime values are modelled by the inductive `Js`; a thrown
exception by `JsError` through `Except`.  `JSON.parse` is modelled by an
executable recursive-descent parser `jsonParse` over the JSON subset the
program exchanges (no fractional numbers, no unicode escapes); `JSON.stringify`
by `jsStringify`.  External collaborators (the OpenAI chat endpoint, axios,
the hmac, the Slack client) are fields of explicit environment records, so
theorems quantify over their behaviour.
-/

/-- A JavaScript value: `undefined` is the JS undefined value, which JSON.stringify drops
from object fields; numbers are modelled as integers (the program never
branches on fractional JSON numbers). -/
inductive Js where
  | undefined : Js
  | null : Js
  | bool (b : Bool) : Js
  | num (n : Int) : Js
  | str (s : String) : Js
  | arr (elems : List Js) : Js
  | obj (fields : List (String × Js)) : Js

/-- A thrown JavaScript exception, as the embedding distinguishes them:
`JSON.parse` failures are SyntaxError, property access on a nullish value
(and calling a missing method) TypeError, `throw new Error(msg)` is `jsError`. -/
inductive JsError where
  | syntaxError : JsError
  | typeError : JsError
  | jsError (msg : String) : JsError
deriving DecidableEq

/-- JavaScript truthiness of a value. -/
def jsTruthy : Js → Bool
  | .undefined => false
  | .null => false
  | .bool b => b
  | .num n => n != 0
  | .str s => s != ""
  | .arr _ => true
  | .obj _ => true

/-- `undefined` or `null`. -/
def jsNullish : Js → Bool
  | .undefined => true
  | .null => true
  | _ => false

/-- Property read on a value already known to be non-nullish: object fields
by name, everything else yields `undefined` (the accessed properties are
never string indices or array members in this program). -/
def jsGetField : Js → String → Js
  | .obj fields, k =>
    match fields.lookup k with
    | some v => v
    | none => .undefined
  | _, _ => .undefined

/-- Optional-chained property read (`v?.k`): `undefined` on a nullish base. -/
def jsOptGet (v : Js) (k : String) : Js :=
  if jsNullish v then .undefined else jsGetField v k

/-- Plain property read (`v.k`): throws TypeError on a nullish base. -/
def jsGetThrow (v : Js) (k : String) : Except JsError Js :=
  if jsNullish v then .error .typeError else .ok (jsGetField v k)

/-- `x ?? undefined`: maps `null` to `undefined`, keeps anything else. -/
def jsCoalesceUndef (v : Js) : Js :=
  if jsNullish v then .undefined else v

/-- `Object.keys(v)`: throws a TypeError on `undefined` and `null`; field
names of an object, index strings of a string or array, empty for the other
primitives (which coerce to key-less objects). -/
def jsObjectKeys : Js → Except JsError (List String)
  | .undefined => .error .typeError
  | .null => .error .typeError
  | .obj fields => .ok (fields.map Prod.fst)
  | .str s => .ok ((List.range s.length).map toString)
  | .arr elems => .ok ((List.range elems.length).map toString)
  | _ => .ok []

/-- One character of a JSON string literal, escaped as JSON.stringify writes it. -/
def jsonEscapeChar (c : Char) : String :=
  if c = '\x22' then "\\\""
  else if c = '\\' then "\\\\"
  else if c = '\n' then "\\n"
  else if c = '\t' then "\\t"
  else if c = '\r' then "\\r"
  else String.singleton c

/-- A JSON string literal for `s`. -/
def jsonQuote (s : String) : String :=
  "\x22" ++ String.join (s.toList.map jsonEscapeChar) ++ "\x22"

mutual
/-- `JSON.stringify`: `none` for `undefined` (JS returns the value
`undefined`, not a string); object fields whose value is `undefined` are
dropped; `undefined` array elements become `null`. -/
def jsStringify : Js → Option String
  | .undefined => none
  | .null => some "null"
  | .bool b => some (if b then "true" else "false")
  | .num n => some (toString n)
  | .str s => some (jsonQuote s)
  | .arr elems => some ("[" ++ String.intercalate "," (jsStringifyElems elems) ++ "]")
  | .obj fields => some ("\x7b" ++ String.intercalate "," (jsStringifyFields fields) ++ "\x7d")

/-- Array elements of `JSON.stringify`, `undefined` rendered as `null`. -/
def jsStringifyElems : List Js → List String
  | [] => []
  | v :: rest =>
    (match jsStringify v with
     | some s => s
     | none => "null") :: jsStringifyElems rest

/-- Object members of `JSON.stringify`; a field whose value stringifies to
nothing (`undefined`) is dropped. -/
def jsStringifyFields : List (String × Js) → List String
  | [] => []
  | (k, v) :: rest =>
    match jsStringify v with
    | some s => (jsonQuote k ++ ":" ++ s) :: jsStringifyFields rest
    | none => jsStringifyFields rest
end

/-- Rendering inside a template literal (`${x}` with x possibly undefined):
`JSON.stringify` output, or the text "undefined". -/
def jsTemplate (v : Js) : String :=
  match jsStringify v with
  | some s => s
  | none => "undefined"

/-- JSON whitespace. -/
def jsonIsWs (c : Char) : Bool :=
  c = ' ' || c = '\n' || c = '\t' || c = '\r'

/-- Skip JSON whitespace. -/
def jsonSkipWs : List Char → List Char
  | [] => []
  | c :: rest => if jsonIsWs c then jsonSkipWs rest else c :: rest

/-- Digits of a JSON number. -/
def jsonTakeDigits : List Char → (List Char × List Char)
  | [] => ([], [])
  | c :: rest =>
    if c.isDigit then
      let (ds, rem) := jsonTakeDigits rest
      (c :: ds, rem)
    else ([], c :: rest)

/-- The natural number a list of decimal digits denotes. -/
def jsonDigitsToNat (ds : List Char) : Nat :=
  ds.foldl (fun n c => 10 * n + (c.toNat - '0'.toNat)) 0

/-- Body of a JSON string literal up to its closing quote, decoding the
escapes `JSON.stringify` emits. -/
def jsonParseStringBody : List Char → Option (String × List Char)
  | [] => none
  | '\x22' :: rest => some ("", rest)
  | '\\' :: e :: rest =>
    let dec : Option Char :=
      if e = '\x22' then some '\x22'
      else if e = '\\' then some '\\'
      else if e = '/' then some '/'
      else if e = 'n' then some '\n'
      else if e = 't' then some '\t'
      else if e = 'r' then some '\r'
      else none
    match dec with
    | none => none
    | some c =>
      match jsonParseStringBody rest with
      | some (s, rem) => some (String.singleton c ++ s, rem)
      | none => none
  | '\\' :: [] => none
  | c :: rest =>
    match jsonParseStringBody rest with
    | some (s, rem) => some (String.singleton c ++ s, rem)
    | none => none

mutual
/-- Recursive-descent JSON value parser, fuel-bounded for termination; models
`JSON.parse` on the subset the program exchanges. -/
def jsonParseValue : Nat → List Char → Option (Js × List Char)
  | 0, _ => none
  | fuel + 1, cs₀ =>
    match jsonSkipWs cs₀ with
    | [] => none
    | c :: cs =>
      if c = '[' then jsonParseElems fuel (jsonSkipWs cs) true
      else if c = '\x7b' then jsonParseMembers fuel (jsonSkipWs cs) true
      else if c = 'n' then
        match cs with
        | 'u' :: 'l' :: 'l' :: rest => some (.null, rest)
        | _ => none
      else if c = 't' then
        match cs with
        | 'r' :: 'u' :: 'e' :: rest => some (.bool true, rest)
        | _ => none
      else if c = 'f' then
        match cs with
        | 'a' :: 'l' :: 's' :: 'e' :: rest => some (.bool false, rest)
        | _ => none
      else if c = '\x22' then
        match jsonParseStringBody cs with
        | some (s, rest) => some (.str s, rest)
        | none => none
      else if c = '-' then
        match jsonTakeDigits cs with
        | ([], _) => none
        | (ds, rest) => some (.num (-(jsonDigitsToNat ds : Int)), rest)
      else if c.isDigit then
        match jsonTakeDigits (c :: cs) with
        | ([], _) => none
        | (ds, rest) => some (.num (jsonDigitsToNat ds), rest)
      else none

/-- Elements of a JSON array after `[`; `first` is true before any element. -/
def jsonParseElems : Nat → List Char → Bool → Option (Js × List Char)
  | 0, _, _ => none
  | _ + 1, ']' :: rest, true => some (.arr [], rest)
  | fuel + 1, cs, _ =>
    match jsonParseValue fuel cs with
    | none => none
    | some (v, rem) =>
      match jsonSkipWs rem with
      | ']' :: rest => some (.arr [v], rest)
      | ',' :: rest =>
        match jsonParseElems fuel (jsonSkipWs rest) false with
        | some (.arr vs, rem') => some (.arr (v :: vs), rem')
        | _ => none
      | _ => none

/-- Members of a JSON object after the opening brace; `first` is true before
any member. -/
def jsonParseMembers : Nat → List Char → Bool → Option (Js × List Char)
  | 0, _, _ => none
  | _ + 1, '\x7d' :: rest, true => some (.obj [], rest)
  | fuel + 1, cs, _ =>
    match jsonSkipWs cs with
    | '\x22' :: cs' =>
      match jsonParseStringBody cs' with
      | none => none
      | some (k, rem) =>
        match jsonSkipWs rem with
        | ':' :: rem' =>
          match jsonParseValue fuel rem' with
          | none => none
          | some (v, rem'') =>
            match jsonSkipWs rem'' with
            | '\x7d' :: rest => some (.obj [(k, v)], rest)
            | ',' :: rest =>
              match jsonParseMembers fuel rest false with
              | some (.obj kvs, rem''') => some (.obj ((k, v) :: kvs), rem''')
              | _ => none
            | _ => none
        | _ => none
    | _ => none
end

/-- `JSON.parse`: parse one value and require only whitespace after it. -/
def jsonParse (s : String) : Option Js :=
  match jsonParseValue (2 * s.length + 2) s.toList with
  | some (v, rest) => if jsonSkipWs rest = [] then some v else none
  | none => none

/-- Strict equality of a value against a string literal, as the handlers
compare (`x === "literal"` is true only for an identical string). -/
def jsEqStr (v : Js) (t : String) : Bool :=
  match v with
  | .str s => s == t
  | _ => false

/-! ## The agent loop (src/api/_openai.ts) -/

/-- Role of a dialogue message. -/
inductive Role where
  | system | user | assistant | tool
deriving DecidableEq

/-- A capability call as the model returns it: `id`, `function.name` and the
raw JSON text `function.arguments`. -/
structure ToolCall where
  id : String
  name : String
  arguments : String
deriving DecidableEq

/-- A chat message as the loop builds them; `tool_calls` empty stands for the
field being absent (the loop only asks whether it is empty). -/
structure ChatMsg where
  role : Role
  content : Option String := none
  tool_call_id : Option String := none
  tool_calls : List ToolCall := []
deriving DecidableEq

/-- A chat completion, collapsed to `choices[0].message`, the only part the
loop reads or returns. -/
structure ChatCompletion where
  message : ChatMsg
deriving DecidableEq

/-- One request to `openai.chat.completions.create`: the messages, and
whether the tool manifest (with `tool_choice: "auto"`) was attached. -/
structure OpenAIRequest where
  messages : List ChatMsg
  useTools : Bool
deriving DecidableEq

/-- A settled promise, as `Promise.allSettled` reports it. -/
inductive Settled where
  | fulfilled (value : Js)
  | rejected (reason : Js)

/-- Observable actions of one `getChatResponse` run: a model round trip, or
the invocation of a capability (its name and the argument it was applied to;
`none` models the zero-argument call `toolFn()`). -/
inductive AgentEv where
  | modelRequest (req : OpenAIRequest)
  | capInvoke (name : String) (arg : Option Js)

/-- The loop's external collaborators: the chat endpoint and the seven
capabilities of the registry, each modelled as the settled outcome of its
invocation. -/
structure AgentEnv where
  chatCreate : OpenAIRequest → ChatCompletion
  retrieveSimilarIssuesByEmbedding : Option Js → Settled
  retrieveSimilarIssuesByTextSearch : Option Js → Settled
  getJiraIssueByIdOrKey : Option Js → Settled
  getSupportedValuesForFields : Option Js → Settled
  searchUsers : Option Js → Settled
  createJiraTicket : Option Js → Settled
  assignJiraTicket : Option Js → Settled

/-- The fixed instruction policy prepended to every model request. -/
def SYSTEM_PROMPT : ChatMsg :=
  { role := .system,
    content := some
      ("You are a helpful assistant integrated with JIRA. " ++
       "You can search for similar tickets, summarize their resolutions, create new tickets, " ++
       "and optionally assign them to users. You operate only within the context of JIRA issue management. " ++
       "If a user asks for something unrelated to JIRA issues, politely decline and clarify your scope. " ++
       "Analyze the user's request and determine which tools to invoke. Use tools in parallel if needed. " ++
       "For similar ticket search, use retrieval with keyword refinement, JIRA search, or both. " ++
       "When doing retrieval, rephrase query to remove brand, offer, or client-specific terms. " ++
       "Use abstracted issue description for better semantic match. " ++
       "For JIRA search, use no more than 4 high-signal keywords from the user query. " ++
       "Always check for similar tickets unless user explicitly opts out. " ++
       "If matches are found, summarize key details and provide clickable links. " ++
       "Encourage the user to review them before proceeding. " ++
       "If new ticket creation is requested, collect all required and optional fields together. " ++
       "Call getSupportedValuesForFields and searchUsers in parallel to validate values. " ++
       "Do not hallucinate field values — only use values returned from validation tools. " ++
       "When confirming values, display user-friendly label or email, with actual value in brackets. " ++
       "Example: 'Would you like to assign this to John <john@demo.com> (acc123)?' or 'Priority: High (High-P3)'. " ++
       "Ask politely and clearly when presenting values — use asking tone, not confirming tone. " ++
       "Always store validated actual values from responses for reuse in follow-up interactions. " ++
       "Use Slack history context to preserve memory across user sessions. " ++
       "Assignee accountId (from searchUsers) can be included directly during ticket creation. " ++
       "Do not confirm each value separately — collect, confirm, and create in one step. " ++
       "If ticket creation fails, only re-ask for missing or invalid fields. " ++
       "Do not request values not required by tool schema like project key unless necessary. " ++
       "Always return the created ticket link and summarize assignment status if applicable. " ++
       "This prompt follows prior user-agent conversation. Use its context to reduce user effort further.") }

/-- The registry's name lookup: the switch of `resolveToolFunction`, `none`
for a name outside the seven cases. -/
def resolveToolFunction (env : AgentEnv) (name : String) :
    Option (Option Js → Settled) :=
  if name == "retrieveSimilarIssuesByEmbedding" then some env.retrieveSimilarIssuesByEmbedding
  else if name == "retrieveSimilarIssuesByTextSearch" then some env.retrieveSimilarIssuesByTextSearch
  else if name == "getJiraIssueByIdOrKey" then some env.getJiraIssueByIdOrKey
  else if name == "getSupportedValuesForFields" then some env.getSupportedValuesForFields
  else if name == "searchUsers" then some env.searchUsers
  else if name == "createJiraTicket" then some env.createJiraTicket
  else if name == "assignJiraTicket" then some env.assignJiraTicket
  else none

/-- One iteration of the fan-out map: resolve the name, `JSON.parse` the
arguments (a failure is a thrown SyntaxError, aborting the whole step), then,
for a resolved capability, read `Object.keys(args)` — a TypeError on a
nullish parsed value, e.g. the argument text "null", also aborts the step —
and invoke it with the parsed value when it has keys, with no argument
otherwise; an unresolved name stands in `Promise.resolve(null)` without
`Object.keys` ever being evaluated. -/
def fanOutOne (env : AgentEnv) (toolCall : ToolCall) :
    Except JsError (Settled × List AgentEv) :=
  let toolFn := resolveToolFunction env toolCall.name
  match jsonParse toolCall.arguments with
  | none => .error .syntaxError
  | some args =>
    match toolFn with
    | some f =>
      match jsObjectKeys args with
      | .error e => .error e
      | .ok keys =>
        if keys.length != 0 then
          .ok (f (some args), [.capInvoke toolCall.name (some args)])
        else
          .ok (f none, [.capInvoke toolCall.name none])
    | none => .ok (.fulfilled .null, [])

/-- The whole fan-out over the requested calls, in issue order; the settled
results keep that order, as `Promise.allSettled` does. -/
def fanOut (env : AgentEnv) : List ToolCall → Except JsError (List Settled × List AgentEv)
  | [] => .ok ([], [])
  | toolCall :: rest => do
    let (r, evs) ← fanOutOne env toolCall
    let (rs, evs') ← fanOut env rest
    .ok (r :: rs, evs ++ evs')

/-- The serialized payload of one settled result: the fulfilled value, or the
failure descriptor `{code, name, message, status, body}` — read with
optional chaining on the reason but a plain access `.status` and `.data` on
`reason?.response`, which throws a TypeError when the reason is non-nullish
and its `response` property is nullish. -/
def serializeSettled (toolResult : Settled) : Except JsError Js :=
  match toolResult with
  | .fulfilled value => .ok value
  | .rejected reason =>
    if jsNullish reason then
      .ok (.obj [("code", .undefined), ("name", .undefined), ("message", .undefined),
                 ("status", .undefined), ("body", .undefined)])
    else
      let response := jsGetField reason "response"
      if jsNullish response then .error .typeError
      else
        .ok (.obj [("code", jsGetField reason "code"),
                   ("name", jsGetField reason "name"),
                   ("message", jsGetField reason "message"),
                   ("status", jsGetField response "status"),
                   ("body", jsGetField response "data")])

/-- One `tool`-role message of `mapToolResultsToPrompts`, tagged with the
originating call's id, its content the `JSON.stringify` of the payload. -/
def mapToolResultToPrompt (toolResult : Settled) (toolCall : ToolCall) :
    Except JsError ChatMsg := do
  let payload ← serializeSettled toolResult
  .ok { role := .tool, tool_call_id := some toolCall.id,
        content := jsStringify payload }

/-- `mapToolResultsToPrompts`: the i-th settled result against
`toolCalls[i]`; an index past the calls reads `.id` of `undefined`. -/
def mapToolResultsToPrompts :
    List Settled → List ToolCall → Except JsError (List ChatMsg)
  | [], _ => .ok []
  | toolResult :: rest, toolCall :: calls => do
    let m ← mapToolResultToPrompt toolResult toolCall
    let ms ← mapToolResultsToPrompts rest calls
    .ok (m :: ms)
  | _ :: _, [] => .error .typeError

/-- The first model request: system policy, full dialogue, tool manifest
attached (`tool_choice: "auto"`). -/
def initialRequest (messages : List ChatMsg) : OpenAIRequest :=
  { messages := SYSTEM_PROMPT :: messages, useTools := true }

/-- The follow-up model request: system policy, full dialogue, the synthetic
assistant message recording the calls, then the tool messages; no manifest. -/
def followUpRequest (messages : List ChatMsg) (toolCalls : List ToolCall)
    (toolPrompts : List ChatMsg) : OpenAIRequest :=
  { messages := SYSTEM_PROMPT :: messages ++
      ({ role := .assistant, tool_calls := toolCalls } :: toolPrompts),
    useTools := false }

/-- `getChatResponse`: first model round trip with the tool manifest; return
it as is when it carries no capability calls; otherwise fan out, fan in, and
make the follow-up round trip with the synthetic assistant message and the
tool messages appended (and no tool manifest).  The returned trace lists the
run's model requests and capability invocations in order. -/
def getChatResponse (env : AgentEnv) (messages : List ChatMsg) :
    Except JsError (ChatCompletion × List AgentEv) :=
  let chatResponse := env.chatCreate (initialRequest messages)
  let toolCalls := chatResponse.message.tool_calls
  if toolCalls.isEmpty then
    .ok (chatResponse, [.modelRequest (initialRequest messages)])
  else
    match fanOut env toolCalls with
    | .error e => .error e
    | .ok (toolResults, evs) =>
      match mapToolResultsToPrompts toolResults toolCalls with
      | .error e => .error e
      | .ok toolPrompts =>
        .ok (env.chatCreate (followUpRequest messages toolCalls toolPrompts),
             [.modelRequest (initialRequest messages)] ++ evs ++
               [.modelRequest (followUpRequest messages toolCalls toolPrompts)])

/-- A raw Slack message, restricted to the fields
`generatePromptFromThread` reads. -/
structure SlackMessage where
  bot_id : Option String := none
  client_msg_id : Option String := none
  text : String := ""
  reply_users : List String := []
deriving DecidableEq

/-- Truthiness of an optional string property (absent, or present and
non-empty). -/
def jsTruthyOptStr : Option String → Bool
  | none => false
  | some s => s != ""

/-- `String.prototype.replace` with a string pattern: only the first
occurrence is replaced. -/
def jsReplaceFirst (s pat repl : String) : String :=
  match s.splitOn pat with
  | x :: y :: rest => x ++ repl ++ String.intercalate pat (y :: rest)
  | _ => s

/-- Rendering of a possibly-undefined string in a template literal. -/
def jsTemplateOptStr : Option String → String
  | none => "undefined"
  | some s => s

/-- `generatePromptFromThread`: an absent message list throws
`Error("No messages found in thread")`; a present but empty list reaches
`messages[0].reply_users` and throws a TypeError; otherwise each message
becomes `assistant` when it has a `bot_id` and no `client_msg_id`, else
`user` with the leading bot mention stripped from its text. -/
def generatePromptFromThread (messages : Option (List SlackMessage)) :
    Except JsError (List ChatMsg) :=
  match messages with
  | none => .error (.jsError "No messages found in thread")
  | some [] => .error .typeError
  | some (m₀ :: rest) =>
    let botID := m₀.reply_users.head?
    .ok ((m₀ :: rest).map fun message =>
      let isBot := jsTruthyOptStr message.bot_id && !(jsTruthyOptStr message.client_msg_id)
      { role := if isBot then .assistant else .user,
        content := some (if isBot then message.text
          else jsReplaceFirst message.text ("<@" ++ jsTemplateOptStr botID ++ "> ") "") })

/-- A fixed assistant completion with no capability calls. -/
def plainCompletion : ChatCompletion :=
  { message := { role := .assistant, content := some "done" } }

/-- A concrete environment whose capabilities all settle fulfilled with
`null` and whose chat endpoint is the given function. -/
def mkEnv (chat : OpenAIRequest → ChatCompletion) : AgentEnv :=
  { chatCreate := chat
    retrieveSimilarIssuesByEmbedding := fun _ => .fulfilled .null
    retrieveSimilarIssuesByTextSearch := fun _ => .fulfilled .null
    getJiraIssueByIdOrKey := fun _ => .fulfilled .null
    getSupportedValuesForFields := fun _ => .fulfilled .null
    searchUsers := fun _ => .fulfilled .null
    createJiraTicket := fun _ => .fulfilled .null
    assignJiraTicket := fun _ => .fulfilled .null }

/-- A concrete environment whose model answers every request directly. -/
def baseEnv : AgentEnv := mkEnv fun _ => plainCompletion

/-- The fan-out settles one result per requested call. -/
theorem fanOut_length (env : AgentEnv) :
    ∀ (toolCalls : List ToolCall) (toolResults : List Settled) (evs : List AgentEv),
      fanOut env toolCalls = .ok (toolResults, evs) →
      toolResults.length = toolCalls.length := by
  intro toolCalls
  induction toolCalls with
  | nil =>
    intro toolResults evs h
    simp only [fanOut, Except.ok.injEq, Prod.mk.injEq] at h
    simp [← h.1]
  | cons tc rest ih =>
    intro toolResults evs h
    simp only [fanOut, bind, Except.bind] at h
    cases h₁ : fanOutOne env tc with
    | error e => rw [h₁] at h; exact absurd h (by simp)
    | ok p =>
      rw [h₁] at h
      cases h₂ : fanOut env rest with
      | error e => rw [h₂] at h; exact absurd h (by simp)
      | ok q =>
        rw [h₂] at h
        obtain ⟨r, evs₀⟩ := p
        obtain ⟨rs, evs₁⟩ := q
        simp only [Except.ok.injEq, Prod.mk.injEq] at h
        have := ih rs evs₁ h₂
        simp [← h.1, this]

/-- Each serialized tool message is `tool`-role and tagged with its call's id. -/
theorem mapToolResultToPrompt_shape (toolResult : Settled) (toolCall : ToolCall)
    (m : ChatMsg) (h : mapToolResultToPrompt toolResult toolCall = .ok m) :
    m.role = .tool ∧ m.tool_call_id = some toolCall.id := by
  simp only [mapToolResultToPrompt, bind, Except.bind] at h
  cases h₁ : serializeSettled toolResult with
  | error e => rw [h₁] at h; exact absurd h (by simp)
  | ok payload =>
    rw [h₁] at h
    simp only [Except.ok.injEq] at h
    simp [← h]

/-- When the fan-in serialization returns, it pairs the results and the calls
one to one, in order: message i is `tool`-role and carries call i's id. -/
theorem mapToolResultsToPrompts_forall₂ :
    ∀ (toolResults : List Settled) (toolCalls : List ToolCall) (toolPrompts : List ChatMsg),
      toolResults.length = toolCalls.length →
      mapToolResultsToPrompts toolResults toolCalls = .ok toolPrompts →
      List.Forall₂ (fun (m : ChatMsg) (tc : ToolCall) =>
        m.role = .tool ∧ m.tool_call_id = some tc.id) toolPrompts toolCalls := by
  intro toolResults
  induction toolResults with
  | nil =>
    intro toolCalls toolPrompts hlen h
    cases toolCalls with
    | nil =>
      simp only [mapToolResultsToPrompts, Except.ok.injEq] at h
      simp [← h]
    | cons tc rest => simp at hlen
  | cons r rest ih =>
    intro toolCalls toolPrompts hlen h
    cases toolCalls with
    | nil => simp at hlen
    | cons tc calls =>
      simp only [mapToolResultsToPrompts, bind, Except.bind] at h
      cases h₁ : mapToolResultToPrompt r tc with
      | error e => rw [h₁] at h; exact absurd h (by simp)
      | ok m =>
        rw [h₁] at h
        cases h₂ : mapToolResultsToPrompts rest calls with
        | error e => rw [h₂] at h; exact absurd h (by simp)
        | ok ms =>
          rw [h₂] at h
          simp only [Except.ok.injEq] at h
          rw [← h]
          have hshape := mapToolResultToPrompt_shape r tc m h₁
          have hlen' : rest.length = calls.length := by simpa using hlen
          exact List.Forall₂.cons hshape (ih calls ms hlen' h₂)

/-- C3: when the model's first response carries no capability calls,
`getChatResponse` makes exactly one model round trip, invokes no capability
and returns that first response unmodified. -/
theorem getChatResponse_direct (env : AgentEnv) (messages : List ChatMsg)
    (h : (env.chatCreate (initialRequest messages)).message.tool_calls = []) :
    getChatResponse env messages =
      .ok (env.chatCreate (initialRequest messages),
           [.modelRequest (initialRequest messages)]) := by
  simp [getChatResponse, h]

/-- C3 witness: a run of `getChatResponse` on a no-tool-call response. -/
theorem getChatResponse_direct_witness :
    getChatResponse baseEnv [] =
      .ok (plainCompletion, [.modelRequest (initialRequest [])]) :=
  getChatResponse_direct baseEnv [] rfl

/-- An environment whose first response requests one capability call whose
argument text is not JSON. -/
def badArgsEnv : AgentEnv := mkEnv fun req =>
  if req.useTools then
    { message := { role := .assistant,
                   tool_calls := [{ id := "call_1", name := "searchUsers",
                                    arguments := "oops" }] } }
  else plainCompletion

/-- C1 counterexample: the model's first response carries one capability
call (N = 1), yet the run throws a SyntaxError out of the fan-out — it
produces no tool message at all and never reaches the follow-up request. -/
theorem getChatResponse_badArgs_throws :
    (badArgsEnv.chatCreate (initialRequest [])).message.tool_calls.length = 1 ∧
    getChatResponse badArgsEnv [] = .error .syntaxError :=
  ⟨rfl, rfl⟩

/-- C1 (amended): when the fan-out and the fan-in both return — every
argument text parses as JSON to a non-nullish value (`Object.keys` throws on
a parsed `null`) and every rejection reason is serializable — the loop
produces exactly one `tool`-role message per requested call, the i-th tagged
with the i-th call's id, appended after the single synthetic assistant
message recording the calls, in the follow-up request. -/
theorem getChatResponse_toolMessages (env : AgentEnv) (messages : List ChatMsg)
    (toolResults : List Settled) (evs : List AgentEv) (toolPrompts : List ChatMsg)
    (h₀ : (env.chatCreate (initialRequest messages)).message.tool_calls ≠ [])
    (h₁ : fanOut env (env.chatCreate (initialRequest messages)).message.tool_calls =
            .ok (toolResults, evs))
    (h₂ : mapToolResultsToPrompts toolResults
            (env.chatCreate (initialRequest messages)).message.tool_calls =
            .ok toolPrompts) :
    getChatResponse env messages =
      .ok (env.chatCreate (followUpRequest messages
             (env.chatCreate (initialRequest messages)).message.tool_calls toolPrompts),
           [.modelRequest (initialRequest messages)] ++ evs ++
             [.modelRequest (followUpRequest messages
               (env.chatCreate (initialRequest messages)).message.tool_calls toolPrompts)]) ∧
    toolPrompts.length =
      (env.chatCreate (initialRequest messages)).message.tool_calls.length ∧
    List.Forall₂ (fun (m : ChatMsg) (tc : ToolCall) =>
        m.role = .tool ∧ m.tool_call_id = some tc.id)
      toolPrompts
      (env.chatCreate (initialRequest messages)).message.tool_calls := by
  have hlen := fanOut_length env _ toolResults evs h₁
  have hf₂ := mapToolResultsToPrompts_forall₂ toolResults _ toolPrompts hlen h₂
  have hempty : ((env.chatCreate (initialRequest messages)).message.tool_calls).isEmpty
      = false := by
    simpa [List.isEmpty_iff] using h₀
  refine ⟨?_, ?_, hf₂⟩
  · simp [getChatResponse, hempty, h₁, h₂]
  · exact hf₂.length_eq

/-- An environment whose first response requests one well-formed
`getSupportedValuesForFields` call. -/
def oneCallEnv : AgentEnv := mkEnv fun req =>
  if req.useTools then
    { message := { role := .assistant,
                   tool_calls := [{ id := "call_7",
                                    name := "getSupportedValuesForFields",
                                    arguments := "\x7b\x7d" }] } }
  else plainCompletion

/-- The single requested call of `oneCallEnv`. -/
def oneCall : ToolCall :=
  { id := "call_7", name := "getSupportedValuesForFields", arguments := "\x7b\x7d" }

/-- The tool message the fan-in of `oneCallEnv`'s run serializes. -/
def oneCallPrompt : ChatMsg :=
  { role := .tool, tool_call_id := some "call_7", content := some "null" }

/-- C1 witness: a run with one well-formed capability call yields one tool
message carrying that call's id, after the synthetic assistant message. -/
theorem getChatResponse_toolMessages_witness :
    getChatResponse oneCallEnv [] =
      .ok (oneCallEnv.chatCreate (followUpRequest [] [oneCall] [oneCallPrompt]),
           [.modelRequest (initialRequest [])] ++
             [.capInvoke "getSupportedValuesForFields" none] ++
             [.modelRequest (followUpRequest [] [oneCall] [oneCallPrompt])]) ∧
    ([oneCallPrompt] : List ChatMsg).length = ([oneCall] : List ToolCall).length ∧
    List.Forall₂ (fun (m : ChatMsg) (tc : ToolCall) =>
        m.role = .tool ∧ m.tool_call_id = some tc.id) [oneCallPrompt] [oneCall] :=
  getChatResponse_toolMessages oneCallEnv []
    [.fulfilled .null] [.capInvoke "getSupportedValuesForFields" none] [oneCallPrompt]
    (by simp [oneCallEnv, mkEnv, initialRequest]) rfl rfl

/-- C2 counterexample: a call naming an unregistered capability settles
fulfilled with `null` — not a failed result — and a call whose argument
text is not JSON makes the fan-out throw a SyntaxError. -/
theorem fanOut_violations :
    fanOutOne baseEnv
        { id := "call_a", name := "notARegisteredTool", arguments := "\x7b\x7d" } =
      .ok (.fulfilled .null, []) ∧
    fanOut baseEnv
        [{ id := "call_b", name := "searchUsers", arguments := "not json" }] =
      .error .syntaxError :=
  ⟨rfl, rfl⟩

/-- C2 (amended): a requested call whose name does not resolve settles,
without invoking anything, as a fulfilled result carrying `null` (not a
failed result), provided its argument text parses; a call whose argument
text fails to parse as JSON throws a SyntaxError out of the fan-out step. -/
theorem fanOutOne_unresolved_or_unparsable (env : AgentEnv) (toolCall : ToolCall) :
    (resolveToolFunction env toolCall.name = none →
      ∀ v, jsonParse toolCall.arguments = some v →
        fanOutOne env toolCall = .ok (.fulfilled .null, [])) ∧
    (jsonParse toolCall.arguments = none →
      fanOutOne env toolCall = .error .syntaxError) := by
  constructor
  · intro hres v hparse
    simp [fanOutOne, hparse, hres]
  · intro hparse
    simp [fanOutOne, hparse]

/-- C2 witness: the two cases at concrete calls. -/
theorem fanOutOne_unresolved_or_unparsable_witness :
    fanOutOne baseEnv
        { id := "call_c", name := "noSuchTool", arguments := "\x7b\x7d" } =
      .ok (.fulfilled .null, []) ∧
    fanOutOne baseEnv
        { id := "call_d", name := "searchUsers", arguments := "oops" } =
      .error .syntaxError :=
  ⟨(fanOutOne_unresolved_or_unparsable baseEnv _).1 rfl (Js.obj []) rfl,
   (fanOutOne_unresolved_or_unparsable baseEnv _).2 rfl⟩

/-- C6 counterexample: a capability rejecting with a plain
`{name, message}` error — no `response` property — makes the fan-in
serialization itself throw a TypeError: it is fatal to the invocation. -/
theorem mapToolResults_plainError_throws :
    mapToolResultsToPrompts
        [.rejected (Js.obj [("name", .str "Error"), ("message", .str "boom")])]
        [{ id := "call_1", name := "searchUsers", arguments := "\x7b\x7d" }] =
      .error .typeError :=
  rfl

/-- C6 (amended): a nullish rejection reason serializes as the empty
descriptor; a reason whose `response` property is non-nullish serializes as
the `{code, name, message, status, body}` descriptor in that call's tool
message; but a non-nullish reason with a nullish `response` property makes
the serialization throw a TypeError. -/
theorem serializeSettled_failureDescriptor (toolCall : ToolCall) (reason : Js) :
    (jsNullish reason = true →
      mapToolResultToPrompt (.rejected reason) toolCall =
        .ok { role := .tool, tool_call_id := some toolCall.id,
              content := some "\x7b\x7d" }) ∧
    (jsNullish reason = false → jsNullish (jsGetField reason "response") = false →
      mapToolResultToPrompt (.rejected reason) toolCall =
        .ok { role := .tool, tool_call_id := some toolCall.id,
              content := jsStringify (Js.obj
                [("code", jsGetField reason "code"),
                 ("name", jsGetField reason "name"),
                 ("message", jsGetField reason "message"),
                 ("status", jsGetField (jsGetField reason "response") "status"),
                 ("body", jsGetField (jsGetField reason "response") "data")]) }) ∧
    (jsNullish reason = false → jsNullish (jsGetField reason "response") = true →
      mapToolResultToPrompt (.rejected reason) toolCall = .error .typeError) := by
  refine ⟨fun h => ?_, fun h h' => ?_, fun h h' => ?_⟩
  · cases reason
    case undefined => rfl
    case null => rfl
    all_goals simp [jsNullish] at h
  · simp [mapToolResultToPrompt, serializeSettled, h, h', bind, Except.bind]
  · simp [mapToolResultToPrompt, serializeSettled, h, h', bind, Except.bind]

/-- A rejection reason in the shape of an axios error. -/
def axiosReason : Js :=
  Js.obj [("code", .str "ERR_BAD_REQUEST"), ("name", .str "AxiosError"),
          ("message", .str "Request failed"),
          ("response", Js.obj [("status", .num 400), ("data", .str "bad field")])]

/-- C6 witness: the three cases at concrete reasons. -/
theorem serializeSettled_failureDescriptor_witness :
    mapToolResultToPrompt (.rejected Js.undefined)
        { id := "call_u", name := "searchUsers", arguments := "\x7b\x7d" } =
      .ok { role := .tool, tool_call_id := some "call_u", content := some "\x7b\x7d" } ∧
    mapToolResultToPrompt (.rejected axiosReason)
        { id := "call_v", name := "searchUsers", arguments := "\x7b\x7d" } =
      .ok { role := .tool, tool_call_id := some "call_v",
            content := jsStringify (Js.obj
              [("code", jsGetField axiosReason "code"),
               ("name", jsGetField axiosReason "name"),
               ("message", jsGetField axiosReason "message"),
               ("status", jsGetField (jsGetField axiosReason "response") "status"),
               ("body", jsGetField (jsGetField axiosReason "response") "data")]) } ∧
    mapToolResultToPrompt (.rejected (Js.obj [("message", .str "boom")]))
        { id := "call_w", name := "searchUsers", arguments := "\x7b\x7d" } =
      .error .typeError :=
  ⟨(serializeSettled_failureDescriptor _ Js.undefined).1 rfl,
   (serializeSettled_failureDescriptor _ axiosReason).2.1 rfl rfl,
   (serializeSettled_failureDescriptor _ _).2.2 rfl rfl⟩

/-- C9 (amended): an absent message list fails with the
"No messages found in thread" error; a present but empty message list also
fails fatally and returns no dialogue, but with a TypeError from reading the
first message, not that error. -/
theorem generatePromptFromThread_empty (messages : Option (List SlackMessage)) :
    (messages = none →
      generatePromptFromThread messages = .error (.jsError "No messages found in thread")) ∧
    (messages = some [] →
      generatePromptFromThread messages = .error .typeError) := by
  constructor <;> rintro rfl <;> rfl

/-- C9 counterexample: a thread with zero messages fails with a TypeError,
which is not the "No messages found in thread" error. -/
theorem generatePromptFromThread_emptyList_not_emptyThreadError :
    generatePromptFromThread (some []) = .error .typeError ∧
    JsError.typeError ≠ .jsError "No messages found in thread" :=
  ⟨rfl, by decide⟩

/-- C9 witness: the two failures at their concrete inputs. -/
theorem generatePromptFromThread_empty_witness :
    generatePromptFromThread (none : Option (List SlackMessage)) =
      .error (.jsError "No messages found in thread") ∧
    generatePromptFromThread (some ([] : List SlackMessage)) = .error .typeError :=
  ⟨(generatePromptFromThread_empty none).1 rfl,
   (generatePromptFromThread_empty (some [])).2 rfl⟩

/-! ## The Jira capability layer (the _jira module, src/unnamed/part_002) -/

/-- One allowed value of a field, as the createmeta mapping shapes it. -/
structure NameId where
  name : String
  id : String
deriving DecidableEq

/-- The field-value map built from the createmeta response. -/
structure FieldValueMap where
  issuetypes : List NameId
  priority : List NameId
  components : List NameId
  brands : List NameId
  environments : List NameId
deriving DecidableEq

/-- `getSupportedValuesForFields`, with the module-level mutable
`fieldValueMapGlobal` passed as explicit state and the createmeta fetch
(axios call plus response reshaping) as an environment function.  The
returned triple is (returned map, the global after the call, how many
upstream fetches the call performed).  The source checks the global and
returns it when set, but after fetching it returns the freshly built map
WITHOUT ever assigning the global, so the state comes back unchanged. -/
def getSupportedValuesForFields (fetchCreateMeta : Unit → FieldValueMap)
    (fieldValueMapGlobal : Option FieldValueMap) :
    FieldValueMap × Option FieldValueMap × Nat :=
  match fieldValueMapGlobal with
  | some m => (m, some m, 0)
  | none =>
    let fieldValueMap := fetchCreateMeta ()
    (fieldValueMap, none, 1)

/-- C4 (code bug): starting from a fresh process (`fieldValueMapGlobal`
null), the first call fetches upstream and leaves the global still null, so
the second call fetches upstream again — the cache is never populated. -/
theorem getSupportedValuesForFields_refetches (fetchCreateMeta : Unit → FieldValueMap) :
    (getSupportedValuesForFields fetchCreateMeta none).2.1 = none ∧
    (getSupportedValuesForFields fetchCreateMeta none).2.2 = 1 ∧
    (getSupportedValuesForFields fetchCreateMeta
      (getSupportedValuesForFields fetchCreateMeta none).2.1).2.2 = 1 := by
  exact ⟨rfl, rfl, rfl⟩

/-- A row of the `cap_jira_issues` table as the similarity query reads it:
`dist` is the cosine distance of the row's embedding to the query embedding
(`embedding <=> $1`), so the reported similarity is `1 - dist`. -/
structure DbRow where
  source : String
  content : String
  metadata : Js
  dist : ℚ

/-- Insert a row into a list sorted by ascending distance. -/
def insertByDist (r : DbRow) : List DbRow → List DbRow
  | [] => [r]
  | x :: xs => if r.dist ≤ x.dist then r :: x :: xs else x :: insertByDist r xs

/-- Sort rows by ascending distance (the `order by embedding <=> $1`). -/
def sortByDist : List DbRow → List DbRow
  | [] => []
  | x :: xs => insertByDist x (sortByDist xs)

/-- The similarity query: keep rows of the configured source whose
similarity `1 - dist` exceeds 0.5, order by ascending distance, and apply
the SQL `limit`. -/
def similarityQuery (table : List DbRow) (src : String) (limit : Nat) : List DbRow :=
  (sortByDist (table.filter fun r =>
    r.source == src && decide ((1 : ℚ) - r.dist > 1 / 2))).take limit

/-- A record `retrieveSimilarIssuesByEmbedding` returns. -/
structure SimilarIssueRecord where
  content : String
  metadata : Js
  similarity : ℚ

/-- The record built from a returned row. -/
def rowToRecord (row : DbRow) : SimilarIssueRecord :=
  { content := row.content, metadata := row.metadata, similarity := 1 - row.dist }

/-- `retrieveSimilarIssuesByEmbedding`: embed the query text (its effect on
the ranking is folded into each row's `dist`), run the similarity query with
the caller's limit (default 5), and map rows to records; any caught error
(`embedFails`, covering the embedding call and the pooled query) returns
`undefined` instead. -/
def retrieveSimilarIssuesByEmbedding (table : List DbRow) (src : String)
    (embedFails : Bool) (textToSearch : String) (limit : Option Nat) :
    Option (List SimilarIssueRecord) :=
  if embedFails then none
  else some ((similarityQuery table src (limit.getD 5)).map rowToRecord)

/-- Membership in an insertion is membership in the parts. -/
theorem mem_insertByDist (a r : DbRow) :
    ∀ l : List DbRow, a ∈ insertByDist r l → a = r ∨ a ∈ l := by
  intro l
  induction l with
  | nil =>
    intro h
    exact Or.inl (List.mem_singleton.mp h)
  | cons x xs ih =>
    intro h
    by_cases hc : r.dist ≤ x.dist
    · simp only [insertByDist, if_pos hc] at h
      exact List.mem_cons.mp h
    · simp only [insertByDist, if_neg hc] at h
      rcases List.mem_cons.mp h with rfl | h₂
      · exact Or.inr (List.mem_cons_self _ _)
      · rcases ih h₂ with h₃ | h₃
        · exact Or.inl h₃
        · exact Or.inr (List.mem_cons_of_mem _ h₃)

/-- The sort returns only rows of its input. -/
theorem mem_sortByDist (a : DbRow) :
    ∀ l : List DbRow, a ∈ sortByDist l → a ∈ l := by
  intro l
  induction l with
  | nil =>
    intro h
    simp [sortByDist] at h
  | cons x xs ih =>
    intro h
    simp only [sortByDist] at h
    rcases mem_insertByDist a x (sortByDist xs) h with h' | h'
    · simp [h']
    · simp [ih h']

/-- Inserting into a distance-sorted list keeps it sorted. -/
theorem pairwise_insertByDist (r : DbRow) :
    ∀ l : List DbRow, l.Pairwise (fun a b => a.dist ≤ b.dist) →
      (insertByDist r l).Pairwise (fun a b => a.dist ≤ b.dist) := by
  intro l
  induction l with
  | nil => intro _; simp [insertByDist]
  | cons x xs ih =>
    intro h
    rcases List.pairwise_cons.mp h with ⟨hx, hxs⟩
    by_cases hc : r.dist ≤ x.dist
    · simp only [insertByDist, if_pos hc]
      refine List.pairwise_cons.mpr ⟨?_, h⟩
      intro a ha
      rcases List.mem_cons.mp ha with rfl | ha'
      · exact hc
      · exact le_trans hc (hx a ha')
    · simp only [insertByDist, if_neg hc]
      refine List.pairwise_cons.mpr ⟨?_, ih hxs⟩
      intro a ha
      rcases mem_insertByDist a r xs ha with rfl | ha'
      · exact le_of_lt (lt_of_not_le hc)
      · exact hx a ha'

/-- The sort output is sorted by ascending distance. -/
theorem sortByDist_pairwise :
    ∀ l : List DbRow, (sortByDist l).Pairwise (fun a b => a.dist ≤ b.dist) := by
  intro l
  induction l with
  | nil => simp [sortByDist]
  | cons x xs ih => exact pairwise_insertByDist x (sortByDist xs) ih

/-- C5: whenever semantic retrieval returns records, there are at most
`limit` of them (default 5), every one has similarity strictly above 0.5,
and they are ordered descending by similarity. -/
theorem retrieveSimilarIssuesByEmbedding_spec (table : List DbRow) (src : String)
    (embedFails : Bool) (textToSearch : String) (limit : Option Nat)
    (records : List SimilarIssueRecord)
    (h : retrieveSimilarIssuesByEmbedding table src embedFails textToSearch limit =
          some records) :
    records.length ≤ limit.getD 5 ∧
    (∀ rec ∈ records, (1 : ℚ) / 2 < rec.similarity) ∧
    records.Pairwise (fun a b => b.similarity ≤ a.similarity) := by
  cases embedFails with
  | true => simp [retrieveSimilarIssuesByEmbedding] at h
  | false =>
    simp only [retrieveSimilarIssuesByEmbedding, Bool.false_eq_true, if_false,
      Option.some.injEq] at h
    subst h
    refine ⟨?_, ?_, ?_⟩
    · calc ((similarityQuery table src (limit.getD 5)).map rowToRecord).length
          = (similarityQuery table src (limit.getD 5)).length := List.length_map _ _
        _ ≤ limit.getD 5 := List.length_take_le _ _
    · intro rec hrec
      rcases List.mem_map.mp hrec with ⟨row, hrow, rfl⟩
      have hrow' : row ∈ sortByDist (table.filter fun r =>
          r.source == src && decide ((1 : ℚ) - r.dist > 1 / 2)) :=
        List.take_subset _ _ hrow
      have hrow'' := mem_sortByDist row _ hrow'
      have hp := (List.mem_filter.mp hrow'').2
      have : (1 : ℚ) - row.dist > 1 / 2 := by
        simpa using (Bool.and_elim_right hp)
      simpa [rowToRecord] using this
    · have hsorted := sortByDist_pairwise (table.filter fun r =>
        r.source == src && decide ((1 : ℚ) - r.dist > 1 / 2))
      have htake : (similarityQuery table src (limit.getD 5)).Pairwise
          (fun a b => a.dist ≤ b.dist) :=
        hsorted.sublist (List.take_sublist _ _)
      rw [List.pairwise_map]
      refine htake.imp ?_
      intro a b hab
      simp only [rowToRecord]
      linarith

/-- Concrete rows for a retrieval run: two matches, one below the relevance
floor, one of a different source. -/
def rowNear : DbRow := { source := "S", content := "near", metadata := .null, dist := 1 / 10 }

/-- A second matching row, farther away. -/
def rowFar : DbRow := { source := "S", content := "far", metadata := .null, dist := 3 / 10 }

/-- A row whose similarity 0.3 is under the floor. -/
def rowWeak : DbRow := { source := "S", content := "weak", metadata := .null, dist := 7 / 10 }

/-- A row of another source. -/
def rowOther : DbRow := { source := "T", content := "other", metadata := .null, dist := 0 }

/-- The demo table, unsorted. -/
def demoTable : List DbRow := [rowFar, rowWeak, rowOther, rowNear]

/-- C5 witness: a concrete retrieval returns the two matching rows, nearest
first, both above the floor, within the limit. -/
theorem retrieveSimilarIssuesByEmbedding_spec_witness :
    ([rowToRecord rowNear, rowToRecord rowFar] : List SimilarIssueRecord).length ≤ 2 ∧
    (∀ rec ∈ ([rowToRecord rowNear, rowToRecord rowFar] : List SimilarIssueRecord),
      (1 : ℚ) / 2 < rec.similarity) ∧
    ([rowToRecord rowNear, rowToRecord rowFar] : List SimilarIssueRecord).Pairwise
      (fun a b => b.similarity ≤ a.similarity) :=
  retrieveSimilarIssuesByEmbedding_spec demoTable "S" false "query" (some 2)
    [rowToRecord rowNear, rowToRecord rowFar]
    (by norm_num [retrieveSimilarIssuesByEmbedding, similarityQuery, demoTable,
      rowNear, rowFar, rowWeak, rowOther, sortByDist, insertByDist, List.filter,
      show ("T" == "S") = false from rfl, show ("S" == "S") = true from rfl])

/-- Arguments of `createJiraTicket` (the destructured parameter). -/
structure CreateTicketArgs where
  issueType : String
  priority : String
  summary : String
  description : String
  brand : String
  component : String
  environment : String
  assigneeId : Option String := none

/-- The request body `createJiraTicket` posts to `/rest/api/3/issue`. -/
def buildIssueFields (projectKey : String) (args : CreateTicketArgs) : Js :=
  Js.obj [("fields", Js.obj
    [("project", Js.obj [("key", .str projectKey)]),
     ("issuetype", Js.obj [("name", .str args.issueType)]),
     ("summary", .str args.summary),
     ("description", Js.obj
       [("content", Js.arr [Js.obj
         [("content", Js.arr [Js.obj
           [("text", .str args.description), ("type", .str "text")]]),
          ("type", .str "paragraph")]]),
        ("type", .str "doc"), ("version", .num 1)]),
     ("customfield_11997", Js.arr [Js.obj [("value", .str args.brand)]]),
     ("components", Js.arr [Js.obj [("name", .str args.component)]]),
     ("priority", Js.obj [("name", .str args.priority)]),
     ("customfield_11800", Js.arr [Js.obj [("value", .str args.environment)]])])]

/-- The Jira module's external collaborators: the issue-creation POST (ok
carries `response.data.key`) and the assignee PUT (ok carries
`response.status`); errors carry the thrown axios error value. -/
structure JiraEnv where
  baseUrl : String
  projectKey : String
  postIssue : Js → Except Js String
  putAssignee : String → String → Except Js Int

/-- `assignJiraTicket`: PUT the account id to the issue's assignee
endpoint, returning `{status}`. -/
def assignJiraTicket (env : JiraEnv) (idOrKey accountId : String) : Except Js Js :=
  match env.putAssignee idOrKey accountId with
  | .error e => .error e
  | .ok st => .ok (Js.obj [("status", .num st)])

/-- The caught-assignment-error descriptor built in `createJiraTicket`'s
catch block (fully optional-chained, so it never throws). -/
def errorDescriptor (err : Js) : Js :=
  Js.obj [("code", jsOptGet err "code"),
          ("name", jsOptGet err "name"),
          ("message", jsOptGet err "message"),
          ("status", jsOptGet (jsOptGet err "response") "status"),
          ("body", jsOptGet (jsOptGet err "response") "data")]

/-- What `createJiraTicket` resolves with. -/
structure CreateTicketResult where
  ticketId : String
  url : String
  assignResponse : Js

/-- `createJiraTicket`: POST the issue (a failure propagates); then, when an
assignee id is truthy, attempt the follow-up assignment, catching its
failure into the `assignResponse` field; either way resolve with the created
key and browse URL. -/
def createJiraTicket (env : JiraEnv) (args : CreateTicketArgs) :
    Except Js CreateTicketResult :=
  match env.postIssue (buildIssueFields env.projectKey args) with
  | .error e => .error e
  | .ok key =>
    let assignResponse : Js :=
      if jsTruthyOptStr args.assigneeId then
        match assignJiraTicket env key (args.assigneeId.getD "") with
        | .ok a => a
        | .error err => errorDescriptor err
      else Js.null
    .ok { ticketId := key, url := env.baseUrl ++ "/browse/" ++ key,
          assignResponse := assignResponse }

/-- C7: when issue creation succeeds and the follow-up assignment call
fails, `createJiraTicket` still resolves with the created key and browse
URL, the assignment error captured in `assignResponse`, not thrown. -/
theorem createJiraTicket_assignFailure (env : JiraEnv) (args : CreateTicketArgs)
    (key : String) (err : Js)
    (hpost : env.postIssue (buildIssueFields env.projectKey args) = .ok key)
    (hassignee : jsTruthyOptStr args.assigneeId = true)
    (hassign : env.putAssignee key (args.assigneeId.getD "") = .error err) :
    createJiraTicket env args =
      .ok { ticketId := key, url := env.baseUrl ++ "/browse/" ++ key,
            assignResponse := errorDescriptor err } := by
  simp [createJiraTicket, hpost, hassignee, assignJiraTicket, hassign]

/-- A concrete Jira environment whose creation succeeds and whose
assignment endpoint rejects. -/
def demoJiraEnv : JiraEnv :=
  { baseUrl := "https://jira.example.com"
    projectKey := "CAP"
    postIssue := fun _ => .ok "CAP-7"
    putAssignee := fun _ _ => .error (Js.obj [("message", .str "no permission")]) }

/-- Concrete creation arguments carrying an assignee id. -/
def demoArgs : CreateTicketArgs :=
  { issueType := "Task", priority := "Medium-P2", summary := "s",
    description := "d", brand := "b", component := "na",
    environment := "prod", assigneeId := some "acc123" }

/-- C7 witness: the concrete run resolves with key, URL and the captured
assignment error. -/
theorem createJiraTicket_assignFailure_witness :
    createJiraTicket demoJiraEnv demoArgs =
      .ok { ticketId := "CAP-7", url := "https://jira.example.com/browse/CAP-7",
            assignResponse := errorDescriptor (Js.obj [("message", .str "no permission")]) } :=
  createJiraTicket_assignFailure demoJiraEnv demoArgs "CAP-7"
    (Js.obj [("message", .str "no permission")]) rfl rfl rfl

/-! ## The webhook handlers (src/api/events.ts, and the retry-aware variant
in src/unnamed/part_003) -/

/-- An inbound POST request: the raw body text and the three headers the
handlers read (`headers.get` yields `null` for an absent header). -/
structure HttpRequest where
  rawBody : String
  timestamp : Option String := none
  signature : Option String := none
  retryNum : Option String := none
deriving DecidableEq

/-- The `Response` a handler constructs: status and body. -/
structure HttpResponse where
  status : Nat
  body : Js

/-- Observable side effect of a handler run: an invocation of
`sendChatResponse` on the delivery's event. -/
inductive WebEv where
  | sendChat (event : Js)

/-- The handlers' external collaborators: the signing secret and bot-user id
from the environment, the HMAC-SHA256 hex digest (key, message), and the
outcome of `sendChatResponse` (whose own uncaught failures propagate). -/
structure WebEnv where
  signingSecret : String
  botUserId : String
  hmacSha256 : String → String → String
  sendChatResponse : Js → Except JsError Unit

/-- Rendering of a possibly-`null` header value in a template literal. -/
def jsTemplateNull : Option String → String
  | none => "null"
  | some s => s

/-- `String.prototype.includes`. -/
def jsStrIncludes (s pat : String) : Bool :=
  pat == "" || (s.splitOn pat).length != 1

/-- `isValidSlackRequest`: recompute `v0=` + HMAC over
`v0:timestamp:JSON.stringify(body)` and compare it strictly with the
signature header (an absent header compares unequal). -/
def isValidSlackRequest (env : WebEnv) (request : HttpRequest) (body : Js) : Bool :=
  let base := "v0:" ++ jsTemplateNull request.timestamp ++ ":" ++ jsTemplate body
  let computedSignature := "v0=" ++ env.hmacSha256 env.signingSecret base
  match request.signature with
  | some slackSignature => computedSignature == slackSignature
  | none => false

/-- The handlers' acceptance condition over `body.event`: an `app_mention`;
or a threaded non-bot `message` whose text mentions the bot; or a non-bot
direct `message`.  Reading `.text` of a nullish (or non-string) event text
throws, as calling `includes` there would. -/
def acceptCondition (env : WebEnv) (event : Js) (eventType : Js) :
    Except JsError Bool :=
  let botId := jsCoalesceUndef (jsOptGet event "bot_id")
  let thread_ts := jsCoalesceUndef (jsOptGet event "thread_ts")
  let channelType := jsCoalesceUndef (jsOptGet event "channel_type")
  let imChain := jsEqStr eventType "message" && !jsTruthy botId &&
    jsEqStr channelType "im"
  if jsEqStr eventType "app_mention" then .ok true
  else if jsEqStr eventType "message" && !jsTruthy botId && jsTruthy thread_ts then
    match jsGetField event "text" with
    | .str t => .ok (jsStrIncludes t ("<@" ++ env.botUserId ++ ">") || imChain)
    | _ => .error .typeError
  else .ok imChain

namespace EventsApi

/-- The `POST` handler of src/api/events.ts: echo `url_verification`
challenges; on a signature-valid `event_callback` matching the acceptance
condition, invoke `sendChatResponse` and answer "Success!"; answer "OK"
otherwise.  It never consults the retry-count header. -/
def POST (env : WebEnv) (request : HttpRequest) :
    Except JsError (HttpResponse × List WebEv) :=
  match jsonParse request.rawBody with
  | none => .error .syntaxError
  | some body =>
    match jsGetThrow body "type" with
    | .error e => .error e
    | .ok requestType =>
      if jsEqStr requestType "url_verification" then
        .ok ({ status := 200, body := jsGetField body "challenge" }, [])
      else if isValidSlackRequest env request body then
        if jsEqStr requestType "event_callback" then
          let event := jsGetField body "event"
          match jsGetThrow event "type" with
          | .error e => .error e
          | .ok eventType =>
            match acceptCondition env event eventType with
            | .error e => .error e
            | .ok true =>
              match env.sendChatResponse event with
              | .error e => .error e
              | .ok _ => .ok ({ status := 200, body := .str "Success!" },
                              [.sendChat event])
            | .ok false => .ok ({ status := 200, body := .str "OK" }, [])
        else .ok ({ status := 200, body := .str "OK" }, [])
      else .ok ({ status := 200, body := .str "OK" }, [])

end EventsApi

namespace ReplyApi

/-- The `POST` handler of the part_003 variant: identical to
`EventsApi.POST` except that the `event_callback` branch is also guarded by
`requestRetryNumber === null` — a delivery carrying the `x-slack-retry-num`
header falls through to the final "OK" acknowledgement. -/
def POST (env : WebEnv) (request : HttpRequest) :
    Except JsError (HttpResponse × List WebEv) :=
  match jsonParse request.rawBody with
  | none => .error .syntaxError
  | some body =>
    match jsGetThrow body "type" with
    | .error e => .error e
    | .ok requestType =>
      if jsEqStr requestType "url_verification" then
        .ok ({ status := 200, body := jsGetField body "challenge" }, [])
      else if isValidSlackRequest env request body then
        if jsEqStr requestType "event_callback" && request.retryNum.isNone then
          let event := jsGetField body "event"
          match jsGetThrow event "type" with
          | .error e => .error e
          | .ok eventType =>
            match acceptCondition env event eventType with
            | .error e => .error e
            | .ok true =>
              match env.sendChatResponse event with
              | .error e => .error e
              | .ok _ => .ok ({ status := 200, body := .str "Success!" },
                              [.sendChat event])
            | .ok false => .ok ({ status := 200, body := .str "OK" }, [])
        else .ok ({ status := 200, body := .str "OK" }, [])
      else .ok ({ status := 200, body := .str "OK" }, [])

end ReplyApi

/-- A concrete webhook environment with a stub digest function and a
succeeding `sendChatResponse`. -/
def webEnvDemo : WebEnv :=
  { signingSecret := "sec", botUserId := "U1",
    hmacSha256 := fun _ _ => "d",
    sendChatResponse := fun _ => .ok () }

/-- A `url_verification` payload. -/
def verifyBody : Js :=
  Js.obj [("type", .str "url_verification"), ("challenge", .str "ok")]

/-- The request delivering `verifyBody`. -/
def verifyRequest : HttpRequest := { rawBody := jsTemplate verifyBody }

/-- An `event_callback` payload carrying an `app_mention` event. -/
def mentionBody : Js :=
  Js.obj [("type", .str "event_callback"),
          ("event", Js.obj [("type", .str "app_mention")])]

/-- A correctly signed redelivery of `mentionBody` carrying the retry-count
header. -/
def retryRequest : HttpRequest :=
  { rawBody := jsTemplate mentionBody, timestamp := some "123",
    signature := some "v0=d", retryNum := some "1" }

/-- C10 (amended): every `Response` the events handler actually returns has
status 200; payloads it cannot read make it throw instead of returning. -/
theorem events_POST_status200 (env : WebEnv) (request : HttpRequest)
    (r : HttpResponse) (evs : List WebEv)
    (h : EventsApi.POST env request = .ok (r, evs)) : r.status = 200 := by
  simp only [EventsApi.POST] at h
  repeat' split at h
  all_goals cases h
  all_goals rfl

/-- C10 witness: the challenge echo of a concrete verification payload. -/
theorem events_POST_status200_witness :
    ({ status := 200, body := Js.str "ok" } : HttpResponse).status = 200 :=
  events_POST_status200 webEnvDemo verifyRequest
    { status := 200, body := Js.str "ok" } [] rfl

/-- C10 counterexample: a payload that is not JSON makes the handler throw a
SyntaxError — no `Response` (of any status) is returned for it. -/
theorem events_POST_nonJson_throws :
    EventsApi.POST webEnvDemo { rawBody := "not json" } = .error .syntaxError :=
  rfl

/-- C8 counterexample: the events handler invokes `sendChatResponse` for a
correctly signed delivery that carries the retry-count header — a
redelivery is fully reprocessed. -/
theorem events_POST_processes_retry :
    retryRequest.retryNum = some "1" ∧
    EventsApi.POST webEnvDemo retryRequest =
      .ok ({ status := 200, body := .str "Success!" },
           [.sendChat (Js.obj [("type", .str "app_mention")])]) :=
  ⟨rfl, rfl⟩

/-- C8 (amended): the retry-aware handler of part_003 answers every
delivery carrying a retry-count header with status 200 and never invokes
`sendChatResponse` for it; the handler of src/api/events.ts ignores that
header (see the counterexample). -/
theorem reply_POST_retry_not_processed (env : WebEnv) (request : HttpRequest)
    (r : HttpResponse) (evs : List WebEv)
    (hretry : request.retryNum ≠ none)
    (h : ReplyApi.POST env request = .ok (r, evs)) :
    r.status = 200 ∧ evs = [] := by
  simp only [ReplyApi.POST] at h
  repeat' split at h
  all_goals try cases h
  all_goals simp_all [Bool.and_eq_true, Option.isNone_iff_eq_none]

/-- C8 witness: the concrete redelivery is acknowledged with 200 and not
processed by the retry-aware handler. -/
theorem reply_POST_retry_not_processed_witness :
    ({ status := 200, body := Js.str "OK" } : HttpResponse).status = 200 ∧
    ([] : List WebEv) = [] :=
  reply_POST_retry_not_processed webEnvDemo retryRequest
    { status := 200, body := Js.str "OK" } [] (by decide) rfl

example : fanOutOne baseEnv
    { id := "call_n", name := "searchUsers", arguments := "null" } =
    .error .typeError := rfl

example : jsonParse "null" = some Js.null := rfl
example : jsonParse "oops" = none := rfl
example : jsonParse " \x7b\x22a\x22: [1, -2, true]\x7d " =
    some (Js.obj [("a", Js.arr [Js.num 1, Js.num (-2), Js.bool true])]) := rfl
example : jsStringify (Js.obj [("a", Js.num 1), ("b", Js.undefined)]) =
    some "\x7b\x22a\x22:1\x7d" := rfl
